import Mathlib

/-!
Verification development for the `basis-private-tracker` crate of the
chaincash repository.  The Rust source (src/types.rs, src/tracker.rs) is
shallowly embedded below: machine integers (`u64`, `u8`) become `Nat`,
`Vec<u8>`/`[u8; 32]` become `List Nat`, `HashSet`/`HashMap` become lists
with explicit membership / association-list operations, `Result<T, E>`
becomes `Except E T`, and the `&mut self` methods become functions
returning the updated state together with the result.  Randomness
(placeholder signatures) and the system clock are passed in as explicit
arguments.  Counters are modelled as unbounded naturals: every increment
in the source is a debug-checked `u64` `+= 1`, which cannot wrap in any
execution shorter than 2^64 operations; the one place where a `u64`
operation can actually trap on reachable states — the subtraction and
multiplication inside `outstanding_notes` — is modelled with an explicit
guard returning `Option` (Rust debug builds panic there).
-/

namespace Basis

/-! ### 64-bit word arithmetic (for Blake2b) -/

/-- Addition of 64-bit words. -/
def wadd (a b : Nat) : Nat := (a + b) % (2 ^ 64)

/-- Bitwise xor of 64-bit words. -/
def wxor (a b : Nat) : Nat := a ^^^ b

/-- Right rotation of a 64-bit word by `n` bits. -/
def rotr (x n : Nat) : Nat := ((x >>> n) ||| (x <<< (64 - n))) % (2 ^ 64)

/-- Little-endian interpretation of a byte list as one word. -/
def bytesToWord (bs : List Nat) : Nat := bs.foldr (fun b acc => acc * 256 + b % 256) 0

/-- The 16 message words of a 128-byte block, little-endian. -/
def blockToWords (block : List Nat) : List Nat :=
  (List.range 16).map fun i => bytesToWord ((block.drop (8 * i)).take 8)

/-- Little-endian serialization of one 64-bit word. -/
def wordToBytes (w : Nat) : List Nat := (List.range 8).map fun i => (w / 256 ^ i) % 256

/-! ### Blake2b (RFC 7693), unkeyed, with configurable digest length

The source hashes with `Blake2b` at 32-byte output
(`pub type Blake2b256 = Blake2b512<U32>` in types.rs). -/

/-- Blake2b initialization vector. -/
def blakeIV : List Nat :=
  [0x6a09e667f3bcc908, 0xbb67ae8584caa73b, 0x3c6ef372fe94f82b, 0xa54ff53a5f1d36f1,
   0x510e527fade682d1, 0x9b05688c2b3e6c1f, 0x1f83d9abfb41bd6b, 0x5be0cd19137e2179]

/-- Blake2b message schedule (rounds beyond 10 reuse rows mod 10). -/
def blakeSigma : List (List Nat) :=
  [[0, 1, 2, 3, 4, 5, 6, 7, 8, 9, 10, 11, 12, 13, 14, 15],
   [14, 10, 4, 8, 9, 15, 13, 6, 1, 12, 0, 2, 11, 7, 5, 3],
   [11, 8, 12, 0, 5, 2, 15, 13, 10, 14, 3, 6, 7, 1, 9, 4],
   [7, 9, 3, 1, 13, 12, 11, 14, 2, 6, 5, 10, 4, 0, 15, 8],
   [9, 0, 5, 7, 2, 4, 10, 15, 14, 1, 11, 12, 6, 8, 3, 13],
   [2, 12, 6, 10, 0, 11, 8, 3, 4, 13, 7, 5, 15, 14, 1, 9],
   [12, 5, 1, 15, 14, 13, 4, 10, 0, 7, 6, 3, 9, 2, 8, 11],
   [13, 11, 7, 14, 12, 1, 3, 9, 5, 0, 15, 4, 8, 6, 2, 10],
   [6, 15, 14, 9, 11, 3, 0, 8, 12, 2, 13, 7, 1, 4, 10, 5],
   [10, 2, 8, 4, 7, 6, 1, 5, 15, 11, 9, 14, 3, 12, 13, 0]]

/-- The Blake2b `G` mixing function acting on work-vector positions `a b c d`. -/
def gMix (v : List Nat) (a b c d x y : Nat) : List Nat :=
  let va := wadd (wadd (v.getD a 0) (v.getD b 0)) x
  let vd := rotr (wxor (v.getD d 0) va) 32
  let vc := wadd (v.getD c 0) vd
  let vb := rotr (wxor (v.getD b 0) vc) 24
  let va2 := wadd (wadd va vb) y
  let vd2 := rotr (wxor vd va2) 16
  let vc2 := wadd vc vd2
  let vb2 := rotr (wxor vb vc2) 63
  ((((v.set a va2).set b vb2).set c vc2).set d vd2)

/-- One Blake2b round over message words `m`. -/
def blakeRound (m v : List Nat) (i : Nat) : List Nat :=
  let s := blakeSigma.getD (i % 10) []
  let mw := fun j => m.getD (s.getD j 0) 0
  let v1 := gMix v 0 4 8 12 (mw 0) (mw 1)
  let v2 := gMix v1 1 5 9 13 (mw 2) (mw 3)
  let v3 := gMix v2 2 6 10 14 (mw 4) (mw 5)
  let v4 := gMix v3 3 7 11 15 (mw 6) (mw 7)
  let v5 := gMix v4 0 5 10 15 (mw 8) (mw 9)
  let v6 := gMix v5 1 6 11 12 (mw 10) (mw 11)
  let v7 := gMix v6 2 7 8 13 (mw 12) (mw 13)
  let v8 := gMix v7 3 4 9 14 (mw 14) (mw 15)
  v8

/-- The Blake2b compression function `F(h, m, t, f)`. -/
def blakeCompress (h m : List Nat) (t : Nat) (f : Bool) : List Nat :=
  let v0 := h ++ blakeIV
  let v1 := v0.set 12 (wxor (v0.getD 12 0) (t % (2 ^ 64)))
  let v2 := v1.set 13 (wxor (v1.getD 13 0) ((t / 2 ^ 64) % (2 ^ 64)))
  let v3 := if f then v2.set 14 (wxor (v2.getD 14 0) (2 ^ 64 - 1)) else v2
  let v4 := (List.range 12).foldl (fun v i => blakeRound m v i) v3
  (List.range 8).map fun i => wxor (wxor (h.getD i 0) (v4.getD i 0)) (v4.getD (i + 8) 0)

/-- Unkeyed Blake2b with digest length `nn` bytes over a byte-list message. -/
def blake2b (nn : Nat) (msg : List Nat) : List Nat :=
  let h0 := blakeIV.set 0 (wxor (blakeIV.getD 0 0) (0x01010000 ^^^ nn))
  let len := msg.length
  let numBlocks := if len = 0 then 1 else (len + 127) / 128
  let hFin := (List.range numBlocks).foldl
    (fun h i =>
      let last := i = numBlocks - 1
      let block := (msg.drop (128 * i)).take 128
      let padded := block ++ List.replicate (128 - block.length) 0
      blakeCompress h (blockToWords padded) (if last then len else 128 * (i + 1)) last)
    h0
  ((hFin.map wordToBytes).flatten).take nn

/-- `Blake2b256::digest`: Blake2b with 32-byte output, as used by the source. -/
def blake2b256 (msg : List Nat) : List Nat := blake2b 32 msg

/-! ### Ledger types (src/types.rs) -/

/-- `PublicKey`: raw key bytes (types.rs lines 20-33). -/
structure PublicKey where
  bytes : List Nat
deriving DecidableEq, Repr

def PublicKey.from_bytes (bytes : List Nat) : PublicKey := ⟨bytes⟩

def PublicKey.as_bytes (pk : PublicKey) : List Nat := pk.bytes

/-- `BlindSignature`: blind Schnorr signature `(a, z)` (types.rs lines 36-65). -/
structure BlindSignature where
  a : List Nat
  z : List Nat
deriving DecidableEq, Repr

def BlindSignature.new (a z : List Nat) : BlindSignature := ⟨a, z⟩

/-- `BlindSignature::to_bytes`: `a` followed by `z`. -/
def BlindSignature.to_bytes (sig : BlindSignature) : List Nat := sig.a ++ sig.z

/-- `BlindSignature::from_bytes`: requires exactly 65 bytes, splits 33 ∥ 32. -/
def BlindSignature.from_bytes (bytes : List Nat) : Except String BlindSignature :=
  if bytes.length ≠ 65 then
    .error ("Invalid signature length: " ++ toString bytes.length)
  else
    .ok ⟨bytes.take 33, (bytes.drop 33).take 32⟩

/-- `PrivateNote` (types.rs lines 68-82). -/
structure PrivateNote where
  denomination : Nat
  serial : List Nat
  blind_signature : BlindSignature
deriving DecidableEq, Repr

/-- `Nullifier` (types.rs line 117). -/
structure Nullifier where
  bytes : List Nat
deriving DecidableEq, Repr

/-- The ASCII bytes of the domain-separation tag `"nullifier"`. -/
def nullifierTag : List Nat := [110, 117, 108, 108, 105, 102, 105, 101, 114]

/-- `Nullifier::compute`: hash of `Blake2b256("nullifier") ∥ serial ∥ key bytes`
(types.rs lines 121-138). -/
def Nullifier.compute (serial : List Nat) (mint_pubkey : PublicKey) : Nullifier :=
  ⟨blake2b256 (blake2b256 nullifierTag ++ serial ++ mint_pubkey.as_bytes)⟩

def Nullifier.as_bytes (n : Nullifier) : List Nat := n.bytes

def Nullifier.from_bytes (bytes : List Nat) : Nullifier := ⟨bytes⟩

/-- `PrivateNote::nullifier` (types.rs lines 96-98). -/
def PrivateNote.nullifier (note : PrivateNote) (mint_pubkey : PublicKey) : Nullifier :=
  Nullifier.compute note.serial mint_pubkey

/-- `PrivateNote::verify_signature` (types.rs lines 103-112): the PoC placeholder
accepts exactly when both signature components are non-empty. -/
def PrivateNote.verify_signature (note : PrivateNote) (_mint_pubkey : PublicKey) : Bool :=
  (!note.blind_signature.a.isEmpty) && (!note.blind_signature.z.isEmpty)

/-- `ReserveState` (types.rs lines 150-157). -/
structure ReserveState where
  reserve_nft : List Nat
  mint_pubkey : PublicKey
  erg_balance : Nat
  nullifier_tree_root : List Nat
  tracker_nft : List Nat
deriving DecidableEq, Repr

/-- `ReserveState::is_solvent` (types.rs lines 177-179). -/
def ReserveState.is_solvent (r : ReserveState) (outstanding_value : Nat) : Bool :=
  decide (r.erg_balance ≥ outstanding_value)

/-- `TrackerState` (types.rs lines 184-189); the `HashSet<Nullifier>` becomes a
duplicate-free list queried by membership. -/
structure TrackerState where
  tracker_nft : List Nat
  spent_nullifiers : List Nullifier
  issued_notes_count : Nat
  redeemed_notes_count : Nat
deriving DecidableEq, Repr

/-- `TrackerState::new` (types.rs lines 192-199). -/
def TrackerState.new (tracker_nft : List Nat) : TrackerState :=
  ⟨tracker_nft, [], 0, 0⟩

/-- `TrackerState::is_spent` (types.rs lines 202-204). -/
def TrackerState.is_spent (s : TrackerState) (n : Nullifier) : Bool :=
  s.spent_nullifiers.contains n

/-- `TrackerState::mark_spent` (types.rs lines 207-214): fails (leaving the state
untouched) if the nullifier is already spent, otherwise inserts it and bumps the
redeemed counter. -/
def TrackerState.mark_spent (s : TrackerState) (n : Nullifier) :
    TrackerState × Except String Unit :=
  if s.is_spent n then
    (s, .error "Nullifier already spent (double-spend attempt)")
  else
    ({ s with spent_nullifiers := n :: s.spent_nullifiers,
              redeemed_notes_count := s.redeemed_notes_count + 1 }, .ok ())

/-- `TrackerState::record_issuance` (types.rs lines 217-219). -/
def TrackerState.record_issuance (s : TrackerState) : TrackerState :=
  { s with issued_notes_count := s.issued_notes_count + 1 }

/-- `TrackerState::outstanding_notes` (types.rs lines 222-225):
`(issued_notes_count - redeemed_notes_count) * denomination` in `u64`
arithmetic; `none` models the debug-mode panic on underflow or overflow. -/
def TrackerState.outstanding_notes (s : TrackerState) (denomination : Nat) : Option Nat :=
  if s.redeemed_notes_count ≤ s.issued_notes_count ∧
      (s.issued_notes_count - s.redeemed_notes_count) * denomination < 2 ^ 64 then
    some ((s.issued_notes_count - s.redeemed_notes_count) * denomination)
  else
    none

/-! ### Tracker (src/tracker.rs) -/

/-- `TrackerError` (tracker.rs lines 18-26). -/
inductive TrackerError where
  | DoubleSpend : TrackerError
  | NoteNotFound : String → TrackerError
  | InvalidSignature : TrackerError
  | InsufficientReserve : TrackerError
  | InvalidDenomination : Nat → TrackerError
  | CryptoError : String → TrackerError
  | InternalError : String → TrackerError
deriving DecidableEq, Repr

/-- `TrackerResult<T>` (tracker.rs line 14). -/
abbrev TrackerResult (α : Type) := Except TrackerError α

/-- `BlindIssuanceRequest` (tracker.rs lines 46-50). -/
structure BlindIssuanceRequest where
  denomination : Nat
  blinded_commitment : List Nat
  deposit_tx_id : String
deriving DecidableEq, Repr

/-- `BlindIssuanceResponse` (tracker.rs lines 54-57). -/
structure BlindIssuanceResponse where
  blind_signature : BlindSignature
  issuance_timestamp : Nat
deriving DecidableEq, Repr

/-- `RedemptionRequest` (tracker.rs lines 61-64). -/
structure RedemptionRequest where
  note : PrivateNote
  receiver_pubkey : PublicKey
deriving DecidableEq, Repr

/-- `RedemptionTxData` (tracker.rs lines 68-77). -/
structure RedemptionTxData where
  reserve_input_id : String
  nullifier : Nullifier
  denomination : Nat
  serial : List Nat
  blind_signature : BlindSignature
  receiver_pubkey : PublicKey
  avl_proof : List Nat
  tracker_signature : List Nat
deriving DecidableEq, Repr

/-- Lowercase hex digit. -/
def hexChar (n : Nat) : Char :=
  if n < 10 then Char.ofNat (48 + n) else Char.ofNat (87 + n)

/-- `hex::encode` over a byte list (lowercase). -/
def hexEncode (bs : List Nat) : String :=
  String.mk (bs.foldr (fun b acc => hexChar (b % 256 / 16) :: hexChar (b % 16) :: acc) [])

/-- Association-list lookup, modelling `HashMap::get`/`remove`'s found value. -/
def mapLookup (k : String) : List (String × BlindIssuanceRequest) → Option BlindIssuanceRequest
  | [] => none
  | (k', v) :: rest => if k' = k then some v else mapLookup k rest

/-- Association-list insert, modelling `HashMap::insert` (overwrites the key). -/
def mapInsert (k : String) (v : BlindIssuanceRequest)
    (m : List (String × BlindIssuanceRequest)) : List (String × BlindIssuanceRequest) :=
  (k, v) :: m.filter (fun p => p.1 ≠ k)

/-- Association-list removal, modelling the erasure done by `HashMap::remove`. -/
def mapErase (k : String) (m : List (String × BlindIssuanceRequest)) :
    List (String × BlindIssuanceRequest) :=
  m.filter (fun p => p.1 ≠ k)

/-- `PrivateBasisTracker` (tracker.rs lines 80-95); the hash map and hash sets
become lists queried by key / membership. -/
structure PrivateBasisTracker where
  reserve : ReserveState
  tracker_state : TrackerState
  pending_issuances : List (String × BlindIssuanceRequest)
  processed_deposits : List String
  allowed_denominations : List Nat
deriving DecidableEq, Repr

/-- `PrivateBasisTracker::new` (tracker.rs lines 99-114): fixed catalog of
0.1 / 1 / 10 / 100 ERG denominations, empty bookkeeping. -/
def PrivateBasisTracker.new (reserve : ReserveState) (tracker_nft : List Nat) :
    PrivateBasisTracker :=
  { reserve := reserve,
    tracker_state := TrackerState.new tracker_nft,
    pending_issuances := [],
    processed_deposits := [],
    allowed_denominations := [100000000, 1000000000, 10000000000, 100000000000] }

/-- `request_blind_issuance` (tracker.rs lines 120-146). -/
def request_blind_issuance (t : PrivateBasisTracker) (request : BlindIssuanceRequest) :
    PrivateBasisTracker × TrackerResult Unit :=
  if ¬ t.allowed_denominations.contains request.denomination then
    (t, .error (.InvalidDenomination request.denomination))
  else if t.processed_deposits.contains request.deposit_tx_id then
    (t, .error (.InternalError "Deposit already used for issuance"))
  else
    ({ t with pending_issuances := mapInsert request.deposit_tx_id request t.pending_issuances },
     .ok ())

/-- `issue_blind_signature` (tracker.rs lines 153-182).  The placeholder blind
signature is drawn from a thread-local RNG and the timestamp from the system
clock; both are surfaced as the explicit arguments `freshSig` and `now`. -/
def issue_blind_signature (t : PrivateBasisTracker) (deposit_tx_id : String)
    (freshSig : BlindSignature) (now : Nat) :
    PrivateBasisTracker × TrackerResult BlindIssuanceResponse :=
  match mapLookup deposit_tx_id t.pending_issuances with
  | none => (t, .error (.NoteNotFound deposit_tx_id))
  | some _request =>
    let t1 := { t with pending_issuances := mapErase deposit_tx_id t.pending_issuances }
    let t2 := { t1 with processed_deposits := deposit_tx_id :: t1.processed_deposits }
    let t3 := { t2 with tracker_state := t2.tracker_state.record_issuance }
    (t3, .ok { blind_signature := freshSig, issuance_timestamp := now })

/-- `is_nullifier_spent` (tracker.rs lines 185-187). -/
def is_nullifier_spent (t : PrivateBasisTracker) (n : Nullifier) : Bool :=
  t.tracker_state.is_spent n

/-- `prepare_redemption` (tracker.rs lines 192-236).  The tracker authorization
signature is drawn from a thread-local RNG in the source, surfaced as the
explicit argument `trackerSig`; the AVL proof placeholder is 64 zero bytes. -/
def prepare_redemption (t : PrivateBasisTracker) (request : RedemptionRequest)
    (trackerSig : List Nat) :
    PrivateBasisTracker × TrackerResult RedemptionTxData :=
  let note := request.note
  if ¬ note.verify_signature t.reserve.mint_pubkey then
    (t, .error .InvalidSignature)
  else
    let nullifier := note.nullifier t.reserve.mint_pubkey
    if is_nullifier_spent t nullifier then
      (t, .error .DoubleSpend)
    else if t.reserve.erg_balance < note.denomination then
      (t, .error .InsufficientReserve)
    else
      (t, .ok { reserve_input_id := hexEncode t.reserve.reserve_nft,
                nullifier := nullifier,
                denomination := note.denomination,
                serial := note.serial,
                blind_signature := note.blind_signature,
                receiver_pubkey := request.receiver_pubkey,
                avl_proof := List.replicate 64 0,
                tracker_signature := trackerSig })

/-- `u64::checked_sub`. -/
def checked_sub (a b : Nat) : Option Nat := if b ≤ a then some (a - b) else none

/-- `finalize_redemption` (tracker.rs lines 239-254).  Faithful to the source's
sequencing: `mark_spent` mutates the tracker state first, and when the
subsequent `checked_sub` on the balance fails the mutation is retained. -/
def finalize_redemption (t : PrivateBasisTracker) (nullifier : Nullifier)
    (denomination : Nat) : PrivateBasisTracker × TrackerResult Unit :=
  let (ts1, r1) := t.tracker_state.mark_spent nullifier
  let t1 := { t with tracker_state := ts1 }
  match r1 with
  | .error e => (t1, .error (.InternalError e))
  | .ok () =>
    match checked_sub t1.reserve.erg_balance denomination with
    | none => (t1, .error .InsufficientReserve)
    | some b => ({ t1 with reserve := { t1.reserve with erg_balance := b } }, .ok ())

/-- `ProofOfReserves` (tracker.rs lines 310-316). -/
structure ProofOfReserves where
  reserve_erg_balance : Nat
  issued_notes_count : Nat
  redeemed_notes_count : Nat
  outstanding_value : Nat
  is_solvent : Bool
deriving DecidableEq, Repr

/-- `get_proof_of_reserves` (tracker.rs lines 257-266), at the hard-coded 1 ERG
denomination; `none` propagates the debug-mode panic of `outstanding_notes`. -/
def get_proof_of_reserves (t : PrivateBasisTracker) : Option ProofOfReserves :=
  (t.tracker_state.outstanding_notes 1000000000).map fun outstanding =>
    { reserve_erg_balance := t.reserve.erg_balance,
      issued_notes_count := t.tracker_state.issued_notes_count,
      redeemed_notes_count := t.tracker_state.redeemed_notes_count,
      outstanding_value := outstanding,
      is_solvent := t.reserve.is_solvent outstanding }

/-! ### Operation sequences

A small-step interface over the four public mutating entry points, used to
state reachability and trace invariants. -/

/-- Did the call succeed? -/
def exceptOk {ε α : Type} : Except ε α → Bool
  | .ok _ => true
  | .error _ => false

/-- One tracker API call together with its non-deterministic environment inputs
(placeholder signatures, timestamps). -/
inductive TrackerOp where
  | reqIssue : BlindIssuanceRequest → TrackerOp
  | issue : String → BlindSignature → Nat → TrackerOp
  | prepRedeem : RedemptionRequest → List Nat → TrackerOp
  | finalize : Nullifier → Nat → TrackerOp
deriving DecidableEq, Repr

/-- Apply one call, returning the updated tracker and whether it succeeded. -/
def applyOp (t : PrivateBasisTracker) : TrackerOp → PrivateBasisTracker × Bool
  | .reqIssue r =>
    let p := request_blind_issuance t r
    (p.1, exceptOk p.2)
  | .issue id sig now =>
    let p := issue_blind_signature t id sig now
    (p.1, exceptOk p.2)
  | .prepRedeem r sig =>
    let p := prepare_redemption t r sig
    (p.1, exceptOk p.2)
  | .finalize n d =>
    let p := finalize_redemption t n d
    (p.1, exceptOk p.2)

/-- Run a sequence of calls, keeping the evolving state. -/
def runOps (t : PrivateBasisTracker) (ops : List TrackerOp) : PrivateBasisTracker :=
  ops.foldl (fun t op => (applyOp t op).1) t

/-- Every call in the sequence succeeds on the state it is applied to. -/
def allSucceed (t : PrivateBasisTracker) : List TrackerOp → Bool
  | [] => true
  | op :: rest => (applyOp t op).2 && allSucceed (applyOp t op).1 rest

def TrackerOp.isIssue : TrackerOp → Bool
  | .issue _ _ _ => true
  | _ => false

def TrackerOp.isFinalize : TrackerOp → Bool
  | .finalize _ _ => true
  | _ => false

/-- Number of `issue_blind_signature` calls in the sequence. -/
def countIssueOps (ops : List TrackerOp) : Nat :=
  (ops.filter TrackerOp.isIssue).length

/-- Number of `finalize_redemption` calls in the sequence. -/
def countFinalizeOps (ops : List TrackerOp) : Nat :=
  (ops.filter TrackerOp.isFinalize).length

/-- Number of `issue_blind_signature` calls that succeed along the run. -/
def countSuccIssue (t : PrivateBasisTracker) : List TrackerOp → Nat
  | [] => 0
  | op :: rest =>
    (if op.isIssue && (applyOp t op).2 then 1 else 0) + countSuccIssue (applyOp t op).1 rest

/-- The operations quantified over by the uniform-denomination solvency
scenario: issuance requests, signings, and finalizations, all at the fixed
1 ERG denomination. -/
def uniformOp : TrackerOp → Bool
  | .reqIssue r => r.denomination == 1000000000
  | .issue _ _ _ => true
  | .prepRedeem _ _ => false
  | .finalize _ d => d == 1000000000

/-! ### Concrete fixtures (mirroring the crate's test values) -/

def fixtureMintKey : PublicKey := ⟨List.replicate 33 2⟩

def fixtureMintKey3 : PublicKey := ⟨List.replicate 33 3⟩

def fixtureSerial42 : List Nat := List.replicate 32 42

def fixtureSerial43 : List Nat := List.replicate 32 43

/-- The test reserve of tracker.rs (100 ERG balance). -/
def fixtureReserve : ReserveState :=
  ⟨List.replicate 32 1, fixtureMintKey, 100000000000, List.replicate 32 0, List.replicate 32 2⟩

/-- The same reserve with an empty balance. -/
def fixtureZeroReserve : ReserveState := { fixtureReserve with erg_balance := 0 }

def fixtureNft : List Nat := List.replicate 32 2

def fixtureTracker : PrivateBasisTracker := PrivateBasisTracker.new fixtureReserve fixtureNft

def fixtureZeroTracker : PrivateBasisTracker :=
  PrivateBasisTracker.new fixtureZeroReserve fixtureNft

def fixtureNullifier : Nullifier := ⟨List.replicate 32 1⟩

def fixtureRequest : BlindIssuanceRequest := ⟨1000000000, List.replicate 32 3, "tx123"⟩

def fixtureBadRequest : BlindIssuanceRequest := ⟨123456789, List.replicate 32 3, "tx456"⟩

def fixtureSig : BlindSignature := ⟨List.replicate 33 6, List.replicate 32 7⟩

def fixtureNote : PrivateNote := ⟨1000000000, List.replicate 32 5, fixtureSig⟩

def fixtureRedReq : RedemptionRequest := ⟨fixtureNote, ⟨List.replicate 33 3⟩⟩

deriving instance DecidableEq for Except

/-- The tracker after one finalized redemption of `fixtureNullifier`. -/
def fixtureSpentTracker : PrivateBasisTracker :=
  (finalize_redemption fixtureTracker fixtureNullifier 1000000000).1

/-- A two-call trace: request issuance of a 1 ERG note for deposit `tx123`,
then sign it. -/
def issueTrace : List TrackerOp :=
  [.reqIssue fixtureRequest, .issue "tx123" fixtureSig 0]

end Basis

namespace Basis

/-! ## Helper lemmas -/

lemma length_blakeCompress (h m : List Nat) (t : Nat) (f : Bool) :
    (blakeCompress h m t f).length = 8 := by
  simp [blakeCompress]

lemma length_foldl_compress {α : Type} (step : List Nat → α → List Nat)
    (hstep : ∀ h i, (step h i).length = 8) :
    ∀ (l : List α) (h : List Nat), h.length = 8 → (l.foldl step h).length = 8 := by
  intro l
  induction l with
  | nil => intro h hh; simpa using hh
  | cons x xs ih =>
    intro h hh
    simpa using ih (step h x) (hstep h x)

lemma length_wordToBytes (w : Nat) : (wordToBytes w).length = 8 := by
  simp [wordToBytes]

lemma flatten_map_wordToBytes_length (l : List Nat) :
    ((l.map wordToBytes).flatten).length = 8 * l.length := by
  induction l with
  | nil => simp
  | cons x xs ih =>
    simp only [List.map_cons, List.flatten_cons, List.length_append, length_wordToBytes, ih,
      List.length_cons]
    ring

/-- Every Blake2b-256 digest has exactly 32 bytes. -/
lemma blake2b256_length (msg : List Nat) : (blake2b256 msg).length = 32 := by
  unfold blake2b256 blake2b
  simp only []
  rw [List.length_take, flatten_map_wordToBytes_length,
    length_foldl_compress _ (fun h i => length_blakeCompress _ _ _ _) _ _ (by simp [blakeIV])]
  norm_num

lemma mapLookup_mapInsert_self (k : String) (v : BlindIssuanceRequest)
    (m : List (String × BlindIssuanceRequest)) :
    mapLookup k (mapInsert k v m) = some v := by
  simp [mapInsert, mapLookup]

lemma mapLookup_mapErase_self (k : String) (m : List (String × BlindIssuanceRequest)) :
    mapLookup k (mapErase k m) = none := by
  induction m with
  | nil => rfl
  | cons p rest ih =>
    by_cases h : p.1 = k
    · simpa [mapErase, List.filter_cons, h] using ih
    · simpa [mapErase, List.filter_cons, h, mapLookup] using ih

/-- A valid, unprocessed request is stored under its deposit id. -/
lemma request_success (t : PrivateBasisTracker) (request : BlindIssuanceRequest)
    (hd : t.allowed_denominations.contains request.denomination = true)
    (hp : t.processed_deposits.contains request.deposit_tx_id = false) :
    request_blind_issuance t request =
      ({ t with pending_issuances :=
          mapInsert request.deposit_tx_id request t.pending_issuances }, .ok ()) := by
  unfold request_blind_issuance
  rw [if_neg (by simpa using hd), if_neg (by simpa using hp)]

/-- Signing a pending id removes it, marks it processed and counts the note. -/
lemma issue_found (t : PrivateBasisTracker) (id : String) (sig : BlindSignature) (now : Nat)
    (req : BlindIssuanceRequest) (h : mapLookup id t.pending_issuances = some req) :
    issue_blind_signature t id sig now =
      ({ t with
            pending_issuances := mapErase id t.pending_issuances,
            processed_deposits := id :: t.processed_deposits,
            tracker_state := t.tracker_state.record_issuance },
       .ok ⟨sig, now⟩) := by
  unfold issue_blind_signature
  rw [h]

/-- Signing an id with no pending request fails and changes nothing. -/
lemma issue_not_found (t : PrivateBasisTracker) (id : String) (sig : BlindSignature)
    (now : Nat) (h : mapLookup id t.pending_issuances = none) :
    issue_blind_signature t id sig now = (t, .error (.NoteNotFound id)) := by
  unfold issue_blind_signature
  rw [h]

/-- `prepare_redemption` returns its input tracker in every branch. -/
lemma prepare_redemption_fst (t : PrivateBasisTracker) (request : RedemptionRequest)
    (trackerSig : List Nat) : (prepare_redemption t request trackerSig).1 = t := by
  simp only [prepare_redemption]
  repeat' split
  all_goals rfl

end Basis

namespace Basis

/-! ## Claim theorems -/

/-- C2: the claimed atomicity of `finalize_redemption` fails in the code: at a
tracker whose reserve balance is 0, finalizing a fresh nullifier at
denomination 1 ERG returns `InsufficientReserve`, yet the nullifier has been
added to the spent set and `redeemed_notes_count` has been incremented — the
`mark_spent` step is not rolled back. -/
theorem finalize_redemption_not_atomic :
    (finalize_redemption fixtureZeroTracker fixtureNullifier 1000000000).2 =
      .error .InsufficientReserve
    ∧ (finalize_redemption fixtureZeroTracker fixtureNullifier
        1000000000).1.tracker_state.spent_nullifiers = [fixtureNullifier]
    ∧ (finalize_redemption fixtureZeroTracker fixtureNullifier
        1000000000).1.tracker_state.redeemed_notes_count = 1
    ∧ fixtureZeroTracker.tracker_state.spent_nullifiers = []
    ∧ fixtureZeroTracker.tracker_state.redeemed_notes_count = 0 := by
  decide

/-- C3 (amended): for every tracker state and nullifier already in the spent
set, `finalize_redemption` fails — with the `InternalError` kind wrapping the
double-spend message, not with `DoubleSpend` — and leaves the whole tracker
state (spent set, counters, reserve balance) unchanged; in particular the
second of two finalizations of the same nullifier fails this way. -/
theorem finalize_already_spent_internal_error (t : PrivateBasisTracker)
    (n : Nullifier) (d : Nat) (h : t.tracker_state.is_spent n = true) :
    finalize_redemption t n d =
      (t, .error (.InternalError "Nullifier already spent (double-spend attempt)")) := by
  simp [finalize_redemption, TrackerState.mark_spent, h]

/-- C3 witness: concrete instance of the amended claim after one successful
finalization. -/
theorem finalize_already_spent_internal_error_witness :
    fixtureSpentTracker.tracker_state.is_spent fixtureNullifier = true
    ∧ finalize_redemption fixtureSpentTracker fixtureNullifier 1000000000 =
      (fixtureSpentTracker,
       .error (.InternalError "Nullifier already spent (double-spend attempt)")) :=
  ⟨by decide, finalize_already_spent_internal_error fixtureSpentTracker fixtureNullifier
    1000000000 (by decide)⟩

/-- C3 counterexample to the claim as stated: finalizing the same nullifier
twice does fail the second time, but the error kind is `InternalError`, not
`DoubleSpend` (tracker.rs maps the `mark_spent` error through
`TrackerError::InternalError`). -/
theorem double_finalize_error_kind_counterexample :
    (finalize_redemption fixtureSpentTracker fixtureNullifier 1000000000).2 ≠
      .error .DoubleSpend
    ∧ (finalize_redemption fixtureSpentTracker fixtureNullifier 1000000000).2 =
      .error (.InternalError "Nullifier already spent (double-spend attempt)") := by
  decide

/-- C5: `prepare_redemption` does not modify the persisted reserve state or
tracker state, whether it succeeds or fails: the returned tracker is the input
tracker, for every starting state and request. -/
theorem prepare_redemption_readonly (t : PrivateBasisTracker)
    (request : RedemptionRequest) (trackerSig : List Nat) :
    (prepare_redemption t request trackerSig).1 = t :=
  prepare_redemption_fst t request trackerSig

/-- C5 witness. -/
theorem prepare_redemption_readonly_witness :
    (prepare_redemption fixtureTracker fixtureRedReq []).1 = fixtureTracker :=
  prepare_redemption_readonly fixtureTracker fixtureRedReq []

/-- C6: `request_blind_issuance` fails with `InvalidDenomination` whenever the
denomination is outside the allowed set; every failure leaves the tracker
(hence the pending map) unchanged; success changes exactly the pending map,
storing the request under its deposit id (overwriting any prior entry). -/
theorem request_blind_issuance_spec (t : PrivateBasisTracker)
    (request : BlindIssuanceRequest) :
    (request.denomination ∉ t.allowed_denominations →
      request_blind_issuance t request =
        (t, .error (.InvalidDenomination request.denomination)))
    ∧ (∀ t' e, request_blind_issuance t request = (t', .error e) → t' = t)
    ∧ (∀ t', request_blind_issuance t request = (t', .ok ()) →
        t' = { t with pending_issuances :=
                mapInsert request.deposit_tx_id request t.pending_issuances }
        ∧ mapLookup request.deposit_tx_id t'.pending_issuances = some request) := by
  refine ⟨?_, ?_, ?_⟩
  · intro h
    unfold request_blind_issuance
    rw [if_pos (by simpa using h)]
  · intro t' e
    unfold request_blind_issuance
    split
    · intro h; injection h with h1 h2; exact h1.symm
    · split
      · intro h; injection h with h1 h2; exact h1.symm
      · intro h; injection h with h1 h2; cases h2
  · intro t'
    unfold request_blind_issuance
    split
    · intro h; injection h with h1 h2; cases h2
    · split
      · intro h; injection h with h1 h2; cases h2
      · intro h
        injection h with h1 h2
        subst h1
        refine ⟨rfl, ?_⟩
        simp [mapInsert, mapLookup]

/-- C6 witness: the spec's concrete scenario — denomination 123456789 is not in
the catalog, the call fails with `InvalidDenomination` and creates no pending
issuance. -/
theorem request_blind_issuance_spec_witness :
    request_blind_issuance fixtureTracker fixtureBadRequest =
      (fixtureTracker, .error (.InvalidDenomination 123456789)) :=
  (request_blind_issuance_spec fixtureTracker fixtureBadRequest).1 (by decide)

/-- C7: for every valid issuance request (allowed denomination, unused deposit
id), `request_blind_issuance` succeeds and an immediate `issue_blind_signature`
on the same deposit id succeeds, increments `issued_notes_count` by exactly 1,
leaves the reserve untouched, removes the pending entry and records the
deposit as processed; a second `issue_blind_signature` for the same id then
fails with `NoteNotFound`. -/
theorem request_then_issue_spec (t : PrivateBasisTracker) (request : BlindIssuanceRequest)
    (freshSig freshSig' : BlindSignature) (now now' : Nat)
    (hd : request.denomination ∈ t.allowed_denominations)
    (hp : request.deposit_tx_id ∉ t.processed_deposits) :
    (request_blind_issuance t request).2 = .ok ()
    ∧ (issue_blind_signature (request_blind_issuance t request).1
        request.deposit_tx_id freshSig now).2 = .ok ⟨freshSig, now⟩
    ∧ (issue_blind_signature (request_blind_issuance t request).1
        request.deposit_tx_id freshSig now).1.tracker_state.issued_notes_count
        = t.tracker_state.issued_notes_count + 1
    ∧ (issue_blind_signature (request_blind_issuance t request).1
        request.deposit_tx_id freshSig now).1.reserve = t.reserve
    ∧ mapLookup request.deposit_tx_id
        (issue_blind_signature (request_blind_issuance t request).1
          request.deposit_tx_id freshSig now).1.pending_issuances = none
    ∧ request.deposit_tx_id ∈
        (issue_blind_signature (request_blind_issuance t request).1
          request.deposit_tx_id freshSig now).1.processed_deposits
    ∧ (issue_blind_signature
        (issue_blind_signature (request_blind_issuance t request).1
          request.deposit_tx_id freshSig now).1
        request.deposit_tx_id freshSig' now').2
        = .error (.NoteNotFound request.deposit_tx_id) := by
  have hd' : t.allowed_denominations.contains request.denomination = true := by
    simpa using hd
  have hp' : t.processed_deposits.contains request.deposit_tx_id = false := by
    simp [hp]
  rw [request_success t request hd' hp']
  rw [issue_found _ _ freshSig now request (mapLookup_mapInsert_self _ _ _)]
  refine ⟨rfl, rfl, rfl, rfl, mapLookup_mapErase_self _ _, by simp, ?_⟩
  rw [issue_not_found _ _ freshSig' now' (mapLookup_mapErase_self _ _)]

/-- C7 witness: the crate's own `tx123` test values. -/
theorem request_then_issue_spec_witness :
    (request_blind_issuance fixtureTracker fixtureRequest).2 = .ok ()
    ∧ (issue_blind_signature (request_blind_issuance fixtureTracker fixtureRequest).1
        "tx123" fixtureSig 7).2 = .ok ⟨fixtureSig, 7⟩
    ∧ (issue_blind_signature (request_blind_issuance fixtureTracker fixtureRequest).1
        "tx123" fixtureSig 7).1.tracker_state.issued_notes_count = 1 := by
  have h := request_then_issue_spec fixtureTracker fixtureRequest fixtureSig fixtureSig 7 7
    (by decide) (by decide)
  exact ⟨h.1, h.2.1, h.2.2.1⟩

set_option maxRecDepth 4000 in
/-- C8: `Nullifier.compute` is a pure deterministic function producing a
32-byte digest, and on the test fixtures (serial `[42u8;32]` vs `[43u8;32]`,
key `0x02`-bytes vs `0x03`-bytes) changing the serial or the key changes the
output. -/
theorem nullifier_pure_deterministic_distinct :
    (∀ (serial : List Nat) (pk : PublicKey),
        Nullifier.compute serial pk = Nullifier.compute serial pk
        ∧ (Nullifier.compute serial pk).bytes.length = 32)
    ∧ Nullifier.compute fixtureSerial42 fixtureMintKey ≠
        Nullifier.compute fixtureSerial43 fixtureMintKey
    ∧ Nullifier.compute fixtureSerial42 fixtureMintKey ≠
        Nullifier.compute fixtureSerial42 fixtureMintKey3 := by
  refine ⟨fun s pk => ⟨rfl, blake2b256_length _⟩, by decide, by decide⟩

/-- C9: `BlindSignature` round-trips exactly through its fixed 65-byte wire
layout: with a 33-byte `a` and 32-byte `z`, `to_bytes` is the 65-byte
concatenation `a ∥ z`, `from_bytes` inverts it, and `from_bytes` fails on
every input whose length is not 65. -/
theorem blind_signature_roundtrip (sig : BlindSignature)
    (ha : sig.a.length = 33) (hz : sig.z.length = 32) :
    sig.to_bytes.length = 65
    ∧ sig.to_bytes = sig.a ++ sig.z
    ∧ BlindSignature.from_bytes sig.to_bytes = .ok sig
    ∧ (∀ bytes : List Nat, bytes.length ≠ 65 →
        BlindSignature.from_bytes bytes =
          .error ("Invalid signature length: " ++ toString bytes.length)) := by
  have hlen : sig.to_bytes.length = 65 := by
    simp [BlindSignature.to_bytes, ha, hz]
  refine ⟨hlen, rfl, ?_, ?_⟩
  · show BlindSignature.from_bytes (sig.a ++ sig.z) = .ok sig
    unfold BlindSignature.from_bytes
    rw [if_neg (by simp [ha, hz])]
    rw [List.take_left' ha, List.drop_left' ha, List.take_of_length_le (le_of_eq hz)]
  · intro bytes hb
    unfold BlindSignature.from_bytes
    rw [if_pos hb]

/-- C9 witness: a concrete 33+32-byte signature round-trips. -/
theorem blind_signature_roundtrip_witness :
    fixtureSig.a.length = 33 ∧ fixtureSig.z.length = 32
    ∧ BlindSignature.from_bytes fixtureSig.to_bytes = .ok fixtureSig :=
  ⟨by decide, by decide,
   (blind_signature_roundtrip fixtureSig (by decide) (by decide)).2.2.1⟩

/-- C10: the placeholder `verify_signature` accepts exactly when both signature
components are non-empty, independently of the mint key and note contents, and
`prepare_redemption` returns `InvalidSignature` exactly when one component is
empty. -/
theorem verify_signature_iff_nonempty (t : PrivateBasisTracker)
    (request : RedemptionRequest) (trackerSig : List Nat) :
    (request.note.verify_signature t.reserve.mint_pubkey = true ↔
      (request.note.blind_signature.a ≠ [] ∧ request.note.blind_signature.z ≠ []))
    ∧ ((prepare_redemption t request trackerSig).2 = .error .InvalidSignature ↔
      (request.note.blind_signature.a = [] ∨ request.note.blind_signature.z = [])) := by
  have hv : request.note.verify_signature t.reserve.mint_pubkey = true ↔
      (request.note.blind_signature.a ≠ [] ∧ request.note.blind_signature.z ≠ []) := by
    simp [PrivateNote.verify_signature]
  refine ⟨hv, ?_⟩
  by_cases h : request.note.verify_signature t.reserve.mint_pubkey = true
  · have hr : ¬ (request.note.blind_signature.a = [] ∨
        request.note.blind_signature.z = []) := by
      rcases hv.mp h with ⟨h1, h2⟩
      tauto
    unfold prepare_redemption
    rw [if_neg (by simp [h])]
    simp only []
    constructor
    · intro hc
      exfalso
      revert hc
      repeat' split <;> simp
    · intro hc; exact absurd hc hr
  · have hr : request.note.blind_signature.a = [] ∨
        request.note.blind_signature.z = [] := by
      by_contra hc
      push_neg at hc
      exact h (hv.mpr hc)
    unfold prepare_redemption
    rw [if_pos (by simp [h])]
    simp [hr]

/-- C10 witness: a note with an empty `z` component is rejected by
`prepare_redemption` with `InvalidSignature`. -/
theorem verify_signature_iff_nonempty_witness :
    (prepare_redemption fixtureTracker
      ⟨⟨1000000000, List.replicate 32 5, ⟨List.replicate 33 6, []⟩⟩,
       ⟨List.replicate 33 3⟩⟩ []).2 = .error .InvalidSignature :=
  ((verify_signature_iff_nonempty fixtureTracker
    ⟨⟨1000000000, List.replicate 32 5, ⟨List.replicate 33 6, []⟩⟩,
     ⟨List.replicate 33 3⟩⟩ []).2).mpr (Or.inr rfl)

end Basis

namespace Basis

/-! per-op frame lemmas -/

lemma applyOp_reqIssue_frame (t : PrivateBasisTracker) (r : BlindIssuanceRequest) :
    ((applyOp t (.reqIssue r)).1).tracker_state = t.tracker_state
    ∧ ((applyOp t (.reqIssue r)).1).reserve = t.reserve := by
  simp only [applyOp, request_blind_issuance]
  repeat' split
  all_goals exact ⟨rfl, rfl⟩

lemma applyOp_prepRedeem_frame (t : PrivateBasisTracker) (r : RedemptionRequest)
    (s : List Nat) : (applyOp t (.prepRedeem r s)).1 = t := by
  simp only [applyOp]
  exact prepare_redemption_fst t r s

lemma applyOp_issue_eq_none (t : PrivateBasisTracker) (id : String) (sig : BlindSignature)
    (now : Nat) (hm : mapLookup id t.pending_issuances = none) :
    applyOp t (.issue id sig now) = (t, false) := by
  simp only [applyOp, issue_not_found t id sig now hm, exceptOk]

lemma applyOp_issue_eq_some (t : PrivateBasisTracker) (id : String) (sig : BlindSignature)
    (now : Nat) (req : BlindIssuanceRequest)
    (hm : mapLookup id t.pending_issuances = some req) :
    applyOp t (.issue id sig now) =
      ({ t with
            pending_issuances := mapErase id t.pending_issuances,
            processed_deposits := id :: t.processed_deposits,
            tracker_state := t.tracker_state.record_issuance }, true) := by
  simp only [applyOp, issue_found t id sig now req hm, exceptOk]

lemma applyOp_issue_frame (t : PrivateBasisTracker) (id : String) (sig : BlindSignature)
    (now : Nat) :
    ((applyOp t (.issue id sig now)).1).reserve = t.reserve
    ∧ ((applyOp t (.issue id sig now)).1).tracker_state.redeemed_notes_count
        = t.tracker_state.redeemed_notes_count
    ∧ ((applyOp t (.issue id sig now)).1).tracker_state.spent_nullifiers
        = t.tracker_state.spent_nullifiers
    ∧ ((applyOp t (.issue id sig now)).1).tracker_state.issued_notes_count
        = t.tracker_state.issued_notes_count
          + (if (applyOp t (.issue id sig now)).2 then 1 else 0) := by
  cases hm : mapLookup id t.pending_issuances with
  | none => rw [applyOp_issue_eq_none t id sig now hm]; simp
  | some req =>
    rw [applyOp_issue_eq_some t id sig now req hm]
    simp [TrackerState.record_issuance]

lemma applyOp_finalize_spent_eq (t : PrivateBasisTracker) (n : Nullifier) (d : Nat)
    (hs : t.tracker_state.is_spent n = true) :
    applyOp t (.finalize n d) = (t, false) := by
  simp [applyOp, finalize_redemption, TrackerState.mark_spent, hs, exceptOk]

lemma applyOp_finalize_ok_eq (t : PrivateBasisTracker) (n : Nullifier) (d : Nat)
    (hs : t.tracker_state.is_spent n = false) (hb : d ≤ t.reserve.erg_balance) :
    applyOp t (.finalize n d) =
      ({ t with
            tracker_state := { t.tracker_state with
                                 spent_nullifiers := n :: t.tracker_state.spent_nullifiers,
                                 redeemed_notes_count :=
                                   t.tracker_state.redeemed_notes_count + 1 },
            reserve := { t.reserve with
                           erg_balance := t.reserve.erg_balance - d } }, true) := by
  simp [applyOp, finalize_redemption, TrackerState.mark_spent, hs, checked_sub, hb, exceptOk]

lemma applyOp_finalize_fail_eq (t : PrivateBasisTracker) (n : Nullifier) (d : Nat)
    (hs : t.tracker_state.is_spent n = false) (hb : ¬ d ≤ t.reserve.erg_balance) :
    applyOp t (.finalize n d) =
      ({ t with
            tracker_state := { t.tracker_state with
                                 spent_nullifiers := n :: t.tracker_state.spent_nullifiers,
                                 redeemed_notes_count :=
                                   t.tracker_state.redeemed_notes_count + 1 } }, false) := by
  simp [applyOp, finalize_redemption, TrackerState.mark_spent, hs, checked_sub, hb, exceptOk]

lemma applyOp_finalize_success (t : PrivateBasisTracker) (n : Nullifier) (d : Nat)
    (h : (applyOp t (.finalize n d)).2 = true) :
    ((applyOp t (.finalize n d)).1).tracker_state.issued_notes_count
      = t.tracker_state.issued_notes_count
    ∧ ((applyOp t (.finalize n d)).1).tracker_state.redeemed_notes_count
      = t.tracker_state.redeemed_notes_count + 1
    ∧ d ≤ t.reserve.erg_balance
    ∧ ((applyOp t (.finalize n d)).1).reserve.erg_balance = t.reserve.erg_balance - d := by
  by_cases hs : t.tracker_state.is_spent n = true
  · rw [applyOp_finalize_spent_eq t n d hs] at h
    cases h
  · rw [Bool.not_eq_true] at hs
    by_cases hb : d ≤ t.reserve.erg_balance
    · rw [applyOp_finalize_ok_eq t n d hs hb]
      exact ⟨rfl, rfl, hb, rfl⟩
    · rw [applyOp_finalize_fail_eq t n d hs hb] at h
      cases h

lemma applyOp_finalize_bound (t : PrivateBasisTracker) (n : Nullifier) (d : Nat) :
    ((applyOp t (.finalize n d)).1).tracker_state.issued_notes_count
      = t.tracker_state.issued_notes_count
    ∧ ((applyOp t (.finalize n d)).1).tracker_state.redeemed_notes_count
      ≤ t.tracker_state.redeemed_notes_count + 1 := by
  by_cases hs : t.tracker_state.is_spent n = true
  · rw [applyOp_finalize_spent_eq t n d hs]
    exact ⟨rfl, Nat.le_succ _⟩
  · rw [Bool.not_eq_true] at hs
    by_cases hb : d ≤ t.reserve.erg_balance
    · rw [applyOp_finalize_ok_eq t n d hs hb]
      exact ⟨rfl, le_refl _⟩
    · rw [applyOp_finalize_fail_eq t n d hs hb]
      exact ⟨rfl, le_refl _⟩

lemma applyOp_spent_mono (t : PrivateBasisTracker) (op : TrackerOp) (m : Nullifier)
    (h : m ∈ t.tracker_state.spent_nullifiers) :
    m ∈ ((applyOp t op).1).tracker_state.spent_nullifiers := by
  cases op with
  | reqIssue r => rw [(applyOp_reqIssue_frame t r).1]; exact h
  | issue id sig now => rw [(applyOp_issue_frame t id sig now).2.2.1]; exact h
  | prepRedeem r s => rw [applyOp_prepRedeem_frame t r s]; exact h
  | finalize n d =>
    by_cases hs : t.tracker_state.is_spent n = true
    · rw [applyOp_finalize_spent_eq t n d hs]; exact h
    · rw [Bool.not_eq_true] at hs
      by_cases hb : d ≤ t.reserve.erg_balance
      · rw [applyOp_finalize_ok_eq t n d hs hb]
        exact List.mem_cons_of_mem n h
      · rw [applyOp_finalize_fail_eq t n d hs hb]
        exact List.mem_cons_of_mem n h

/-! fold lemmas -/

lemma run_uniform_spec : ∀ (ops : List TrackerOp) (t : PrivateBasisTracker),
    ops.all uniformOp = true → allSucceed t ops = true →
    (runOps t ops).tracker_state.issued_notes_count
        = t.tracker_state.issued_notes_count + countIssueOps ops
    ∧ (runOps t ops).tracker_state.redeemed_notes_count
        = t.tracker_state.redeemed_notes_count + countFinalizeOps ops
    ∧ (runOps t ops).reserve.erg_balance + 1000000000 * countFinalizeOps ops
        = t.reserve.erg_balance := by
  intro ops
  induction ops with
  | nil =>
    intro t _ _
    simp [runOps, countIssueOps, countFinalizeOps]
  | cons op rest ih =>
    intro t hall hsucc
    simp only [List.all_cons, Bool.and_eq_true] at hall
    obtain ⟨hop, hall'⟩ := hall
    simp only [allSucceed, Bool.and_eq_true] at hsucc
    obtain ⟨hok, hsucc'⟩ := hsucc
    have hrun : runOps t (op :: rest) = runOps (applyOp t op).1 rest := rfl
    obtain ⟨ihI, ihR, ihB⟩ := ih (applyOp t op).1 hall' hsucc'
    cases op with
    | reqIssue r =>
      obtain ⟨hts, hres⟩ := applyOp_reqIssue_frame t r
      have hCI : countIssueOps (TrackerOp.reqIssue r :: rest) = countIssueOps rest := by
        simp [countIssueOps, List.filter_cons, TrackerOp.isIssue]
      have hCF : countFinalizeOps (TrackerOp.reqIssue r :: rest) = countFinalizeOps rest := by
        simp [countFinalizeOps, List.filter_cons, TrackerOp.isFinalize]
      rw [hrun, hCI, hCF]
      rw [hts] at ihI ihR
      rw [hres] at ihB
      exact ⟨ihI, ihR, ihB⟩
    | issue id sig now =>
      obtain ⟨hres, hred, hsp, hiss⟩ := applyOp_issue_frame t id sig now
      have hCI : countIssueOps (TrackerOp.issue id sig now :: rest)
          = countIssueOps rest + 1 := by
        simp [countIssueOps, List.filter_cons, TrackerOp.isIssue]
      have hCF : countFinalizeOps (TrackerOp.issue id sig now :: rest)
          = countFinalizeOps rest := by
        simp [countFinalizeOps, List.filter_cons, TrackerOp.isFinalize]
      rw [hrun, hCI, hCF]
      rw [hok] at hiss
      simp only [if_pos] at hiss
      rw [hiss] at ihI
      rw [hred] at ihR
      rw [hres] at ihB
      exact ⟨by omega, ihR, ihB⟩
    | prepRedeem r s =>
      simp [uniformOp] at hop
    | finalize n d =>
      have hd : d = 1000000000 := by
        simpa [uniformOp] using hop
      obtain ⟨hiss, hred, hdle, hbal⟩ := applyOp_finalize_success t n d hok
      have hCI : countIssueOps (TrackerOp.finalize n d :: rest) = countIssueOps rest := by
        simp [countIssueOps, List.filter_cons, TrackerOp.isIssue]
      have hCF : countFinalizeOps (TrackerOp.finalize n d :: rest)
          = countFinalizeOps rest + 1 := by
        simp [countFinalizeOps, List.filter_cons, TrackerOp.isFinalize]
      rw [hrun, hCI, hCF]
      rw [hiss] at ihI
      rw [hred] at ihR
      rw [hbal] at ihB
      subst hd
      exact ⟨ihI, by omega, by omega⟩

lemma run_counts_bound : ∀ (ops : List TrackerOp) (t : PrivateBasisTracker),
    (runOps t ops).tracker_state.issued_notes_count
        = t.tracker_state.issued_notes_count + countSuccIssue t ops
    ∧ (runOps t ops).tracker_state.redeemed_notes_count
        ≤ t.tracker_state.redeemed_notes_count + countFinalizeOps ops := by
  intro ops
  induction ops with
  | nil =>
    intro t
    simp [runOps, countSuccIssue, countFinalizeOps]
  | cons op rest ih =>
    intro t
    have hrun : runOps t (op :: rest) = runOps (applyOp t op).1 rest := rfl
    have hCS : countSuccIssue t (op :: rest)
        = (if op.isIssue && (applyOp t op).2 then 1 else 0)
          + countSuccIssue (applyOp t op).1 rest := rfl
    obtain ⟨ihI, ihR⟩ := ih (applyOp t op).1
    rw [hrun, hCS]
    cases op with
    | reqIssue r =>
      obtain ⟨hts, _⟩ := applyOp_reqIssue_frame t r
      have hCF : countFinalizeOps (TrackerOp.reqIssue r :: rest) = countFinalizeOps rest := by
        simp [countFinalizeOps, List.filter_cons, TrackerOp.isFinalize]
      rw [hCF]
      rw [hts] at ihI ihR
      constructor
      · rw [ihI]; simp [TrackerOp.isIssue]
      · exact ihR
    | issue id sig now =>
      obtain ⟨_, hred, _, hiss⟩ := applyOp_issue_frame t id sig now
      have hCF : countFinalizeOps (TrackerOp.issue id sig now :: rest)
          = countFinalizeOps rest := by
        simp [countFinalizeOps, List.filter_cons, TrackerOp.isFinalize]
      rw [hCF]
      rw [hiss] at ihI
      rw [hred] at ihR
      constructor
      · rw [ihI]
        simp only [TrackerOp.isIssue, Bool.true_and]
        omega
      · exact ihR
    | prepRedeem r s =>
      have hfr : (applyOp t (.prepRedeem r s)).1 = t := applyOp_prepRedeem_frame t r s
      have hCF : countFinalizeOps (TrackerOp.prepRedeem r s :: rest)
          = countFinalizeOps rest := by
        simp [countFinalizeOps, List.filter_cons, TrackerOp.isFinalize]
      rw [hCF, hfr]
      rw [hfr] at ihI ihR
      constructor
      · rw [ihI]; simp [TrackerOp.isIssue]
      · exact ihR
    | finalize n d =>
      obtain ⟨hiss, hred⟩ := applyOp_finalize_bound t n d
      have hCF : countFinalizeOps (TrackerOp.finalize n d :: rest)
          = countFinalizeOps rest + 1 := by
        simp [countFinalizeOps, List.filter_cons, TrackerOp.isFinalize]
      rw [hCF]
      rw [hiss] at ihI
      constructor
      · rw [ihI]; simp [TrackerOp.isIssue]
      · omega

end Basis

namespace Basis

/-- C1 counterexample to the claim as stated: a tracker whose reserve starts
solvent (balance 0, zero notes outstanding, `is_solvent = true`) becomes
insolvent after one successful uniform-denomination issuance sequence
(request + sign of one 1 ERG note), because `issue_blind_signature` never
credits the deposit to the reserve balance. -/
theorem solvency_fails_from_solvent_start :
    (get_proof_of_reserves fixtureZeroTracker).map ProofOfReserves.is_solvent = some true
    ∧ issueTrace.all uniformOp = true
    ∧ allSucceed fixtureZeroTracker issueTrace = true
    ∧ (get_proof_of_reserves (runOps fixtureZeroTracker issueTrace)).map
        ProofOfReserves.is_solvent = some false := by
  decide

/-- C1 (amended): for every sequence of successful
`request_blind_issuance` / `issue_blind_signature` / `finalize_redemption`
calls at the fixed 1 ERG denomination, started from a freshly constructed
tracker, `get_proof_of_reserves` reports a solvent reserve
(`reserveBalance ≥ outstandingValue`) provided the initial balance covers the
total value of all signing calls in the sequence and finalizations do not
outnumber signings.  (Starting merely solvent is not enough, since issuance
does not credit the balance — see the counterexample.) -/
theorem solvency_holds_when_balance_covers_issuance (r : ReserveState) (nft : List Nat)
    (ops : List TrackerOp)
    (hb : r.erg_balance < 2 ^ 64)
    (huni : ops.all uniformOp = true)
    (hsucc : allSucceed (PrivateBasisTracker.new r nft) ops = true)
    (hcover : 1000000000 * countIssueOps ops ≤ r.erg_balance)
    (hfin : countFinalizeOps ops ≤ countIssueOps ops) :
    ∃ por : ProofOfReserves,
      get_proof_of_reserves (runOps (PrivateBasisTracker.new r nft) ops) = some por
      ∧ por.is_solvent = true
      ∧ por.outstanding_value ≤ por.reserve_erg_balance := by
  obtain ⟨hI, hR, hB⟩ := run_uniform_spec ops (PrivateBasisTracker.new r nft) huni hsucc
  set R := runOps (PrivateBasisTracker.new r nft) ops with hRdef
  have h0I : (PrivateBasisTracker.new r nft).tracker_state.issued_notes_count = 0 := rfl
  have h0R : (PrivateBasisTracker.new r nft).tracker_state.redeemed_notes_count = 0 := rfl
  have h0B : (PrivateBasisTracker.new r nft).reserve.erg_balance = r.erg_balance := rfl
  rw [h0I, Nat.zero_add] at hI
  rw [h0R, Nat.zero_add] at hR
  rw [h0B] at hB
  have hexp : (2 : Nat) ^ 64 = 18446744073709551616 := by norm_num
  have hguard : R.tracker_state.redeemed_notes_count ≤ R.tracker_state.issued_notes_count
      ∧ (R.tracker_state.issued_notes_count - R.tracker_state.redeemed_notes_count)
          * 1000000000 < 2 ^ 64 := by
    constructor
    · omega
    · rw [hI, hR, hexp]
      rw [hexp] at hb
      omega
  refine ⟨{ reserve_erg_balance := R.reserve.erg_balance,
            issued_notes_count := countIssueOps ops,
            redeemed_notes_count := countFinalizeOps ops,
            outstanding_value := (countIssueOps ops - countFinalizeOps ops) * 1000000000,
            is_solvent := R.reserve.is_solvent
              ((countIssueOps ops - countFinalizeOps ops) * 1000000000) },
         ?_, ?_, ?_⟩
  · unfold get_proof_of_reserves TrackerState.outstanding_notes
    rw [if_pos hguard]
    show some _ = some _
    rw [hI, hR]
  · show R.reserve.is_solvent ((countIssueOps ops - countFinalizeOps ops) * 1000000000) = true
    simp only [ReserveState.is_solvent, ge_iff_le, decide_eq_true_eq]
    omega
  · show (countIssueOps ops - countFinalizeOps ops) * 1000000000 ≤ R.reserve.erg_balance
    omega

/-- C1 witness: the covered-issuance hypothesis holds for the 100 ERG test
reserve and the one-note issuance trace. -/
theorem solvency_holds_when_balance_covers_issuance_witness :
    ∃ por : ProofOfReserves,
      get_proof_of_reserves (runOps (PrivateBasisTracker.new fixtureReserve fixtureNft)
        issueTrace) = some por
      ∧ por.is_solvent = true
      ∧ por.outstanding_value ≤ por.reserve_erg_balance :=
  solvency_holds_when_balance_covers_issuance fixtureReserve fixtureNft issueTrace
    (by decide) (by decide) (by decide) (by decide) (by decide)

/-- C4 counterexample to the claim as stated: a single `finalize_redemption`
call on a freshly constructed tracker succeeds with no prior issuance, leaving
a reachable state with `redeemed_notes_count = 1 > 0 = issued_notes_count`. -/
theorem redeemed_exceeds_issued_counterexample :
    (runOps fixtureTracker
      [.finalize fixtureNullifier 1000000000]).tracker_state.redeemed_notes_count = 1
    ∧ (runOps fixtureTracker
        [.finalize fixtureNullifier 1000000000]).tracker_state.issued_notes_count = 0 := by
  decide

/-- C4 (amended): the spent-nullifier set only grows — no tracker operation
ever removes a nullifier from it — and `issued_notes_count ≥
redeemed_notes_count` holds in every state reachable from a fresh tracker by a
sequence in which `finalize_redemption` calls do not outnumber successful
`issue_blind_signature` calls (the code does not enforce the inequality
otherwise: finalization needs no prior issuance). -/
theorem spent_set_monotone_and_counts (r : ReserveState) (nft : List Nat)
    (ops : List TrackerOp)
    (h : countFinalizeOps ops ≤ countSuccIssue (PrivateBasisTracker.new r nft) ops) :
    (∀ (t : PrivateBasisTracker) (op : TrackerOp) (m : Nullifier),
        m ∈ t.tracker_state.spent_nullifiers →
        m ∈ ((applyOp t op).1).tracker_state.spent_nullifiers)
    ∧ (runOps (PrivateBasisTracker.new r nft) ops).tracker_state.redeemed_notes_count
        ≤ (runOps (PrivateBasisTracker.new r nft) ops).tracker_state.issued_notes_count := by
  constructor
  · exact fun t op => applyOp_spent_mono t op
  · obtain ⟨hI, hR⟩ := run_counts_bound ops (PrivateBasisTracker.new r nft)
    have h0I : (PrivateBasisTracker.new r nft).tracker_state.issued_notes_count = 0 := rfl
    have h0R : (PrivateBasisTracker.new r nft).tracker_state.redeemed_notes_count = 0 := rfl
    omega

/-- C4 witness: count inequality concretely satisfied by the one-note
issuance trace. -/
theorem spent_set_monotone_and_counts_witness :
    (runOps (PrivateBasisTracker.new fixtureReserve fixtureNft)
      issueTrace).tracker_state.redeemed_notes_count
    ≤ (runOps (PrivateBasisTracker.new fixtureReserve fixtureNft)
        issueTrace).tracker_state.issued_notes_count :=
  (spent_set_monotone_and_counts fixtureReserve fixtureNft issueTrace (by decide)).2

end Basis
